import Mathlib

/-!
Verification development for the YouTube-Playlist-Cleaner content script
(`src/content.ts`).  The definitions below are a shallow embedding of the
pure decision logic of the script: the filter-string parser, the relative
age parser, the filter engine `getVideosToDeleteAndReasons`, the decision
step of the convergence loader `loadAllVideos`, the per-candidate loop of
`deleteVideosAndCreateSummary` (with page interaction results and the
cooperative cancellation flag supplied as oracles), and the summary entry
formatting.  Machine strings are modelled as Lean `String`/`List Char`,
JavaScript numbers as `Int`/`Nat`, and optional or possibly-absent values
as `Option`.
-/

namespace YPC

/-- The double-quote character, used by the quoted-phrase pattern of
`parseFilterString`. -/
def dquote : Char := Char.ofNat 34

/-- The apostrophe character, used in reason strings of the filter engine. -/
def apos : Char := Char.ofNat 39

/-- Apostrophe as a one-character string. -/
def aposS : String := String.mk [apos]

/-- Lowercase every character; models `String.prototype.toLowerCase` on the
character range the script works with. -/
def lowerChars (l : List Char) : List Char := l.map Char.toLower

/-- Drop leading and trailing whitespace; models `String.prototype.trim`. -/
def trimChars (l : List Char) : List Char :=
  ((l.dropWhile Char.isWhitespace).reverse.dropWhile Char.isWhitespace).reverse

/-- Split on a separator character, keeping empty pieces; models
`String.prototype.split` with a one-character separator. -/
def splitOnChar (sep : Char) : List Char → List (List Char)
  | [] => [[]]
  | c :: rest =>
    if c = sep then [] :: splitOnChar sep rest
    else
      match splitOnChar sep rest with
      | h :: t => (c :: h) :: t
      | [] => [[c]]

/-- Delete the first occurrence of `pat`; models
`String.prototype.replace` with a plain string pattern and an empty
replacement. -/
def removeFirst (pat : List Char) : List Char → List Char
  | [] => []
  | c :: rest =>
    if List.isPrefixOf pat (c :: rest) then List.drop pat.length (c :: rest)
    else c :: removeFirst pat rest

/-- Scanner for the repeated-exec loop over the pattern
QUOTE [^QUOTE]+ QUOTE: the second argument is `none` outside a candidate
match and `some acc` after an opening quote with `acc` the content read so
far.  An immediately following quote with empty content fails the match and
restarts at that quote, exactly as the regex engine advances. -/
def qmAux : List Char → Option (List Char) → List (List Char)
  | [], _ => []
  | c :: rest, none => if c = dquote then qmAux rest (some []) else qmAux rest none
  | c :: rest, some acc =>
    if c = dquote then
      if acc = [] then qmAux rest (some []) else acc :: qmAux rest none
    else qmAux rest (some (acc ++ [c]))

/-- The contents of the successive matches of the quoted-phrase pattern,
in scan order. -/
def quotedMatches (l : List Char) : List (List Char) := qmAux l none

/-- The full text of one quoted match, quotes included. -/
def quoteWrap (content : List Char) : List Char := dquote :: (content ++ [dquote])

/-- One iteration per regex match, as in the while loop of
`parseFilterString`: push the trimmed, lowercased phrase when non-empty and
delete the full quoted match from the remaining string. -/
def phraseLoop : List (List Char) → List String → List Char → List String × List Char
  | [], terms, remaining => (terms, remaining)
  | content :: ms, terms, remaining =>
    phraseLoop ms
      (if trimChars content = [] then terms
       else terms ++ [String.mk (lowerChars (trimChars content))])
      (removeFirst (quoteWrap content) remaining)

/-- Embedding of `parseFilterString` (content.ts, lines 131-144). -/
def parseFilterString : Option String → List String
  | none => []
  | some fs =>
    if fs = "" then []
    else
      let pair := phraseLoop (quotedMatches fs.toList) [] fs.toList
      let otherTerms :=
        ((splitOnChar ',' pair.2).map (fun t => String.mk (lowerChars (trimChars t)))).filter
          (fun t => decide (0 < t.length))
      pair.1 ++ otherTerms

/-- Quoted-phrase terms of an input, in order of appearance, trimmed and
lowercased, empty phrases dropped. -/
def phraseTermsOf (fs : String) : List String :=
  (quotedMatches fs.toList).foldl
    (fun acc content =>
      if trimChars content = [] then acc
      else acc ++ [String.mk (lowerChars (trimChars content))]) []

/-- What is left of the input after deleting every quoted match. -/
def remainderOf (fs : String) : List Char :=
  (quotedMatches fs.toList).foldl (fun s content => removeFirst (quoteWrap content) s) fs.toList

/-- Comma-split terms of the remaining string, trimmed, lowercased, empty
pieces dropped. -/
def commaTermsOf (fs : String) : List String :=
  ((splitOnChar ',' (remainderOf fs)).map (fun t => String.mk (lowerChars (trimChars t)))).filter
    (fun t => decide (0 < t.length))

/-- Units accepted by the relative-age pattern of `parseAgeToDays`. -/
inductive AgeTok
  | day
  | week
  | month
  | year
deriving DecidableEq

/-- Day count of one parse-side unit. -/
def AgeTok.factor : AgeTok → Int
  | .day => 1
  | .week => 7
  | .month => 30
  | .year => 365

/-- Decimal value of a digit string, as `parseInt` computes it on an
all-digit input. -/
def digitsToNat (ds : List Char) : Nat := ds.foldl (fun n c => n * 10 + (c.toNat - 48)) 0

/-- Match one of day/week/month/year at the head of the input, in the
alternation order of the regex. -/
def unitAt (l : List Char) : Option AgeTok :=
  if List.isPrefixOf ['d', 'a', 'y'] l then some .day
  else if List.isPrefixOf ['w', 'e', 'e', 'k'] l then some .week
  else if List.isPrefixOf ['m', 'o', 'n', 't', 'h'] l then some .month
  else if List.isPrefixOf ['y', 'e', 'a', 'r'] l then some .year
  else none

/-- Match the mandatory whitespace run followed by a unit.  Consuming the
whole whitespace run is equivalent to the regex's backtracking because the
unit never starts with a whitespace character. -/
def spaceThenUnit : List Char → Option AgeTok
  | [] => none
  | c :: rest => if c.isWhitespace then unitAt (rest.dropWhile Char.isWhitespace) else none

/-- Try a digit run, whitespace and a unit at the current position. -/
def tryDigits (l : List Char) : Option (Nat × AgeTok) :=
  if l.takeWhile Char.isDigit = [] then none
  else
    match spaceThenUnit (l.dropWhile Char.isDigit) with
    | some u => some (digitsToNat (l.takeWhile Char.isDigit), u)
    | none => none

/-- Try the three value alternatives of the pattern at the current
position, in the regex's order: the word a, the word an, then a digit run. -/
def tryMatchAt (l : List Char) : Option (Nat × AgeTok) :=
  match l with
  | 'a' :: rest =>
    (match spaceThenUnit rest with
     | some u => some (1, u)
     | none =>
       match rest with
       | 'n' :: rest2 =>
         (match spaceThenUnit rest2 with
          | some u => some (1, u)
          | none => tryDigits l)
       | _ => tryDigits l)
  | _ => tryDigits l

/-- Scan for the first match of the pattern, advancing one character on
failure, as the regex engine does. -/
def findAgeMatch : List Char → Option (Nat × AgeTok)
  | [] => none
  | c :: rest =>
    match tryMatchAt (c :: rest) with
    | some r => some r
    | none => findAgeMatch rest

/-- Embedding of `parseAgeToDays` (content.ts, lines 425-444). -/
def parseAgeToDays (ageString : String) : Option Int :=
  if ageString = "" then none
  else
    match findAgeMatch ageString.toList with
    | some (v, u) => some ((v : Int) * u.factor)
    | none => none

/-- Data extracted from one video renderer; the DOM element handle is
modelled as an opaque numeric id. -/
structure VideoData where
  id : Nat
  title : String
  channelName : String
  isWatched : Bool
  watchPercentage : Int
  ageString : Option String
  videoUrl : Option String
deriving DecidableEq

/-- The criteria field of the watched filter. -/
inductive WatchedCriteria
  | anyDuration
  | seconds
  | percent
deriving DecidableEq

/-- The watched filter sent from the popup. -/
structure WatchedFilter where
  enabled : Bool
  criteria : WatchedCriteria
  value : Int
deriving DecidableEq

/-- Units of the age filter sent from the popup. -/
inductive AgeUnit
  | days
  | weeks
  | months
  | years
deriving DecidableEq

/-- Day count of one filter-side unit. -/
def AgeUnit.factor : AgeUnit → Int
  | .days => 1
  | .weeks => 7
  | .months => 30
  | .years => 365

/-- String form of a filter-side unit, as it appears in reason strings. -/
def AgeUnit.label : AgeUnit → String
  | .days => "days"
  | .weeks => "weeks"
  | .months => "months"
  | .years => "years"

/-- The age filter sent from the popup. -/
structure AgeFilter where
  value : Int
  unit : AgeUnit
deriving DecidableEq

/-- The complete filter set sent from the popup.  An absent optional
boolean behaves exactly like `false` in every use, so `deleteUnavailable`
is a plain `Bool`. -/
structure Filters where
  titleContains : Option String
  channelName : Option String
  isWatched : Option WatchedFilter
  deleteUnavailable : Bool
  age : Option AgeFilter
deriving DecidableEq

/-- The matching logic selector. -/
inductive Logic
  | AND
  | OR
deriving DecidableEq

/-- A video matched for deletion together with its reasons. -/
structure DeletionCandidate where
  id : Nat
  title : String
  reasons : List String
  videoUrl : Option String
deriving DecidableEq

/-- The `filterAgeInDays` value computed at the top of
`getVideosToDeleteAndReasons` (lines 458-467): a zero (falsy) value leaves
it `null`. -/
def filterAgeInDays : Option AgeFilter → Option Int
  | some a => if a.value ≠ 0 then some (a.value * a.unit.factor) else none
  | none => none

/-- The `activeFilterCount` computation (lines 469-475). -/
def activeFilterCount (filters : Filters) (titleSearchTerms channelSearchTerms : List String)
    (fAge : Option Int) : Nat :=
  (List.filter (fun b => b)
    [(match filters.isWatched with | some w => w.enabled | none => false),
     filters.deleteUnavailable,
     decide (0 < titleSearchTerms.length),
     decide (0 < channelSearchTerms.length),
     fAge.isSome]).length

/-- Substring test; models `String.prototype.includes`. -/
def containsSub (pat : List Char) : List Char → Bool
  | [] => List.isPrefixOf pat []
  | c :: rest => List.isPrefixOf pat (c :: rest) || containsSub pat rest

/-- The watched sub-filter reasons pushed for one video (lines 480-495):
nothing when the filter is absent or disabled, one reason when the
criteria matches. -/
def watchedReason (fw : Option WatchedFilter) (v : VideoData) : List String :=
  match fw with
  | none => []
  | some w =>
    if w.enabled then
      if w.criteria = WatchedCriteria.anyDuration ∧ v.isWatched = true then
        ["Is watched (any duration)"]
      else if w.criteria = WatchedCriteria.percent then
        if 0 < w.value ∧ w.value ≤ v.watchPercentage then
          ["Watched for at least " ++ toString w.value ++ "%"]
        else []
      else []
    else []

/-- The unavailable sub-filter reasons for one video (lines 497-499). -/
def unavailableReason (du : Bool) (v : VideoData) : List String :=
  if du = true ∧ (v.title = "[Private video]" ∨ v.title = "[Deleted video]") then
    ["Is unavailable ([Private video] or [Deleted video])"]
  else []

/-- The first title term contained in the lowercased title. -/
def titleFound (terms : List String) (v : VideoData) : Option String :=
  terms.find? (fun term => containsSub term.toList (lowerChars v.title.toList))

/-- The title sub-filter reasons for one video (lines 500-505). -/
def titleReason (terms : List String) (v : VideoData) : List String :=
  if 0 < terms.length then
    match titleFound terms v with
    | some t => ["Title contains " ++ aposS ++ t ++ aposS]
    | none => []
  else []

/-- The first channel term contained in the lowercased channel name. -/
def channelFound (terms : List String) (v : VideoData) : Option String :=
  terms.find? (fun term => containsSub term.toList (lowerChars v.channelName.toList))

/-- The channel sub-filter reasons for one video (lines 506-511). -/
def channelReason (terms : List String) (v : VideoData) : List String :=
  if 0 < terms.length then
    match channelFound terms v with
    | some t => ["Channel contains " ++ aposS ++ t ++ aposS]
    | none => []
  else []

/-- The value printed in the age reason through optional chaining. -/
def ageValueStr : Option AgeFilter → String
  | some a => toString a.value
  | none => "undefined"

/-- The unit printed in the age reason through optional chaining. -/
def ageUnitStr : Option AgeFilter → String
  | some a => a.unit.label
  | none => "undefined"

/-- The age sub-filter reasons for one video (lines 512-517): the filter
threshold must be present, the age string present and non-empty (truthy),
parseable, and strictly larger than the threshold. -/
def ageReason (age : Option AgeFilter) (fAge : Option Int) (v : VideoData) : List String :=
  match fAge with
  | none => []
  | some fa =>
    match v.ageString with
    | none => []
    | some s =>
      if s ≠ "" then
        match parseAgeToDays s with
        | some d =>
          if fa < d then ["Is older than " ++ ageValueStr age ++ " " ++ ageUnitStr age] else []
        | none => []
      else []

/-- All reasons pushed for one video, in the code's push order. -/
def videoReasons (filters : Filters) (tTerms cTerms : List String) (fAge : Option Int)
    (v : VideoData) : List String :=
  watchedReason filters.isWatched v
    ++ unavailableReason filters.deleteUnavailable v
    ++ titleReason tTerms v
    ++ channelReason cTerms v
    ++ ageReason filters.age fAge v

/-- The per-video candidate decision (lines 519-525). -/
def candidateFor (filters : Filters) (logic : Logic) (tTerms cTerms : List String)
    (fAge : Option Int) (active : Nat) (v : VideoData) : Option DeletionCandidate :=
  if (logic = Logic.OR ∧ 0 < (videoReasons filters tTerms cTerms fAge v).length)
      ∨ (logic = Logic.AND ∧ (videoReasons filters tTerms cTerms fAge v).length = active
          ∧ 0 < active) then
    some ⟨v.id, v.title, videoReasons filters tTerms cTerms fAge v, v.videoUrl⟩
  else none

/-- Embedding of `getVideosToDeleteAndReasons` (content.ts, lines 453-527). -/
def getVideosToDeleteAndReasons (videos : List VideoData) (filters : Filters) (logic : Logic) :
    List DeletionCandidate :=
  videos.filterMap
    (candidateFor filters logic (parseFilterString filters.titleContains)
      (parseFilterString filters.channelName) (filterAgeInDays filters.age)
      (activeFilterCount filters (parseFilterString filters.titleContains)
        (parseFilterString filters.channelName) (filterAgeInDays filters.age)))

/-- Indicator of a boolean. -/
def boolToNat (b : Bool) : Nat := if b then 1 else 0

/-- Whether the watched sub-filter matches one video. -/
def watchedMatches (fw : Option WatchedFilter) (v : VideoData) : Bool :=
  match fw with
  | none => false
  | some w =>
    w.enabled && ((decide (w.criteria = WatchedCriteria.anyDuration) && v.isWatched)
      || (decide (w.criteria = WatchedCriteria.percent) && decide (0 < w.value)
          && decide (w.value ≤ v.watchPercentage)))

/-- Whether the unavailable sub-filter matches one video. -/
def unavailableMatches (du : Bool) (v : VideoData) : Bool :=
  du && (decide (v.title = "[Private video]") || decide (v.title = "[Deleted video]"))

/-- Whether the title sub-filter matches one video. -/
def titleMatches (terms : List String) (v : VideoData) : Bool :=
  decide (0 < terms.length) && (titleFound terms v).isSome

/-- Whether the channel sub-filter matches one video. -/
def channelMatches (terms : List String) (v : VideoData) : Bool :=
  decide (0 < terms.length) && (channelFound terms v).isSome

/-- Whether the age sub-filter matches one video. -/
def ageMatches (fAge : Option Int) (v : VideoData) : Bool :=
  match fAge with
  | none => false
  | some fa =>
    match v.ageString with
    | none => false
    | some s =>
      decide (s ≠ "") && (match parseAgeToDays s with
        | some d => decide (fa < d)
        | none => false)

/-- Number of sub-filters that matched one video. -/
def hitCount (filters : Filters) (tTerms cTerms : List String) (fAge : Option Int)
    (v : VideoData) : Nat :=
  boolToNat (watchedMatches filters.isWatched v)
    + boolToNat (unavailableMatches filters.deleteUnavailable v)
    + boolToNat (titleMatches tTerms v)
    + boolToNat (channelMatches cTerms v)
    + boolToNat (ageMatches fAge v)

/-- `hitCount` at the arguments the pipeline computes from the filter set. -/
def pipelineHitCount (filters : Filters) (v : VideoData) : Nat :=
  hitCount filters (parseFilterString filters.titleContains)
    (parseFilterString filters.channelName) (filterAgeInDays filters.age) v

/-- `activeFilterCount` at the arguments the pipeline computes from the
filter set. -/
def pipelineActiveCount (filters : Filters) : Nat :=
  activeFilterCount filters (parseFilterString filters.titleContains)
    (parseFilterString filters.channelName) (filterAgeInDays filters.age)

/-- One failed removal recorded by the executor. -/
structure Failure where
  title : String
  reasons : List String
  videoUrl : Option String
deriving DecidableEq

/-- Result of the interactive removal sequence for one candidate, supplied
as an oracle for the best-effort page primitives. -/
inductive StepOutcome
  | removed
  | menuButtonMissing
  | popupMissing
  | removeButtonMissing
  | exception
deriving DecidableEq

/-- Interactive page primitives invoked by the executor. -/
inductive ExecEvent
  | scrollIntoView (idx : Nat)
  | openMenu (idx : Nat)
  | activateRemove (idx : Nat)
  | dismissMenu (idx : Nat)
deriving DecidableEq

/-- Accumulated executor state: summary blocks of processed candidates,
failed removals, and the trace of interactive primitives. -/
structure ExecState where
  summaries : List String
  failed : List Failure
  events : List ExecEvent
deriving DecidableEq

/-- Embedding of the `isUnavailableTitle` helper (lines 550-554); the
trim is the whitespace trim modelled by `trimChars`. -/
def isUnavailableTitle : Option String → Bool
  | none => false
  | some t =>
    if t = "" then false
    else
      decide (String.mk (trimChars t.toList) = "[Private video]")
        || decide (String.mk (trimChars t.toList) = "[Deleted video]")

/-- The title-and-reasons part of one summary block. -/
def entryBase (title : String) (reasons : List String) : String :=
  "- " ++ title ++ "\n  (Reason: " ++ String.intercalate ", " reasons ++ ")"

/-- One summary block for a processed candidate (dry-run lines 571-582 and
real-removal lines 606-614): the URL line is appended only when a URL is
present (truthy) and the title is not an unavailable sentinel. -/
def candidateEntry (c : DeletionCandidate) : String :=
  match c.videoUrl with
  | some u =>
    if u ≠ "" ∧ isUnavailableTitle (some c.title) = false then
      entryBase c.title c.reasons ++ "\n  " ++ u
    else entryBase c.title c.reasons
  | none => entryBase c.title c.reasons

/-- One failed-removal block of the summary (lines 660-668). -/
def failureEntry (f : Failure) : String :=
  match f.videoUrl with
  | some u =>
    if u ≠ "" ∧ isUnavailableTitle (some f.title) = false then
      entryBase f.title f.reasons ++ "\n  " ++ u ++ "\n"
    else entryBase f.title f.reasons ++ "\n"
  | none => entryBase f.title f.reasons ++ "\n"

/-- The failed-removals section of the summary (lines 658-669). -/
def failedSection (failed : List Failure) : String :=
  if failed.isEmpty then ""
  else "\n---\n\nFailed to Remove Videos:\n" ++ String.join (failed.map failureEntry)

/-- The cancellation flag as observed at the top of iteration `idx`:
`some k` means the operator requested cancellation after `k` candidates
had been processed. -/
def isCancelledAt : Option Nat → Nat → Bool
  | some k, idx => decide (k ≤ idx)
  | none, _ => false

/-- Processing of one candidate (lines 563-628): the dry-run path records
the summary block and performs no page interaction; the real path scrolls,
opens the menu and activates the remove control, recording a failure with
the code's reason string on each failure branch. -/
def processCandidate (isDryRun : Bool) (outcome : StepOutcome) (idx : Nat)
    (c : DeletionCandidate) (st : ExecState) : ExecState :=
  if isDryRun then
    { st with summaries := st.summaries ++ [candidateEntry c] }
  else
    match outcome with
    | .removed =>
      { st with summaries := st.summaries ++ [candidateEntry c],
                events := st.events ++ [.scrollIntoView idx, .openMenu idx, .activateRemove idx] }
    | .menuButtonMissing =>
      { st with failed := st.failed ++ [⟨c.title, ["Menu button not found"], c.videoUrl⟩],
                events := st.events ++ [.scrollIntoView idx] }
    | .popupMissing =>
      { st with failed := st.failed ++ [⟨c.title, ["Menu popup not found"], c.videoUrl⟩],
                events := st.events ++ [.scrollIntoView idx, .openMenu idx] }
    | .removeButtonMissing =>
      { st with failed := st.failed ++ [⟨c.title, ["Remove button not found in menu"], c.videoUrl⟩],
                events := st.events ++ [.scrollIntoView idx, .openMenu idx, .dismissMenu idx] }
    | .exception =>
      { st with failed := st.failed ++ [⟨c.title, ["Exception during removal"], c.videoUrl⟩],
                events := st.events ++ [.scrollIntoView idx] }

/-- The candidate loop (lines 556-629): the cancellation flag is read
before each candidate begins, and a set flag breaks out of the loop. -/
def execLoopAux (isDryRun : Bool) (cancelAt : Option Nat) (outcomes : Nat → StepOutcome) :
    List DeletionCandidate → Nat → ExecState → ExecState
  | [], _, st => st
  | c :: rest, idx, st =>
    if isCancelledAt cancelAt idx then st
    else
      execLoopAux isDryRun cancelAt outcomes rest (idx + 1)
        (processCandidate isDryRun (outcomes idx) idx c st)

/-- The per-candidate loop of `deleteVideosAndCreateSummary` started on a
fresh state. -/
def runCandidates (isDryRun : Bool) (cancelAt : Option Nat) (outcomes : Nat → StepOutcome)
    (candidates : List DeletionCandidate) : ExecState :=
  execLoopAux isDryRun cancelAt outcomes candidates 0 ⟨[], [], []⟩

/-- Events of one whole run, the executor events plus cleanup. -/
inductive RunEvent
  | execEvent (e : ExecEvent)
  | cleanup
deriving DecidableEq

/-- Whether an event is the cleanup step. -/
def isCleanup : RunEvent → Bool
  | .cleanup => true
  | .execEvent _ => false

/-- Number of cleanup events in a trace. -/
def cleanupCount (evs : List RunEvent) : Nat := evs.countP isCleanup

/-- Control flow of `handleDeleteRequest` (lines 730-759): the executor
runs unless cancellation was observed during loading, and the finally
block performs cleanup exactly once on every exit path. -/
def handleDeleteRequestEvents (cancelledDuringLoad isDryRun : Bool) (cancelAt : Option Nat)
    (outcomes : Nat → StepOutcome) (candidates : List DeletionCandidate) : List RunEvent :=
  (if cancelledDuringLoad then []
   else (runCandidates isDryRun cancelAt outcomes candidates).events.map RunEvent.execEvent)
    ++ [RunEvent.cleanup]

/-- The no-growth stop threshold of `loadAllVideos`. -/
def NO_GROW_THRESHOLD : Nat := 2

/-- Loop state of `loadAllVideos` carried between rounds. -/
structure LoaderState where
  lastCount : Nat
  prevScrollHeight : Nat
  noGrowCount : Nat
deriving DecidableEq

/-- Whether a loader round continues looping or stops. -/
inductive RoundOutcome
  | continueLoop
  | stopLoop
deriving DecidableEq

/-- The value the growth wait (lines 303-315) resolves to when the page
state is stable across the wait: growth is reported on an increased item
count, an increased content extent, or an observed subtree mutation. -/
def growthSignal (st : LoaderState) (curCount curHeight : Nat) (mutationObserved : Bool) : Bool :=
  decide (st.lastCount < curCount) || decide (st.prevScrollHeight < curHeight) || mutationObserved

/-- One round of the `loadAllVideos` convergence loop after the growth
wait (lines 317-351): the recomputed count and extent, the spinner
presence and the last-node visibility are the observations of the round. -/
def loaderRound (st : LoaderState) (grew : Bool) (currentCount currentHeight : Nat)
    (continuationSpinner lastNodeVisible : Bool) : LoaderState × RoundOutcome :=
  if grew = true ∧ st.lastCount < currentCount then
    (⟨currentCount, currentHeight, 0⟩, RoundOutcome.continueLoop)
  else
    if continuationSpinner = false ∧ lastNodeVisible = true then
      (⟨st.lastCount, st.prevScrollHeight, st.noGrowCount + 1⟩, RoundOutcome.stopLoop)
    else if NO_GROW_THRESHOLD ≤ st.noGrowCount + 1 then
      (⟨st.lastCount, st.prevScrollHeight, st.noGrowCount + 1⟩, RoundOutcome.stopLoop)
    else (⟨st.lastCount, st.prevScrollHeight, st.noGrowCount + 1⟩, RoundOutcome.continueLoop)

/-- Sample input of the term-parser property: the raw filter string
review, "let's play" (the apostrophe written through `apos`). -/
def c5Input : String :=
  String.mk (['r', 'e', 'v', 'i', 'e', 'w', ',', ' '] ++ [dquote] ++ ['l', 'e', 't'] ++ [apos]
    ++ ['s', ' ', 'p', 'l', 'a', 'y'] ++ [dquote])

/-- The quoted phrase of `c5Input` after trimming and lowercasing. -/
def c5Phrase : String :=
  String.mk (['l', 'e', 't'] ++ [apos] ++ ['s', ' ', 'p', 'l', 'a', 'y'])

end YPC

namespace YPC

/-- Concrete video used to instantiate the age-filter property. -/
def w3Video : VideoData := ⟨0, "t", "c", false, 0, some "3 weeks ago", none⟩

/-- Concrete video used to instantiate the engagement property. -/
def w4Video : VideoData := ⟨0, "t", "c", true, 45, none, none⟩

/-- Concrete video used to instantiate the non-empty-reasons property. -/
def w8Video : VideoData := ⟨0, "abc", "", true, 100, none, none⟩

/-- Concrete filter set used to instantiate the non-empty-reasons
property. -/
def w8Filters : Filters := ⟨none, none, some ⟨true, WatchedCriteria.anyDuration, 0⟩, false, none⟩

/-- Concrete filter set with a zero-valued age filter. -/
def w9Filters : Filters :=
  ⟨none, none, some ⟨true, WatchedCriteria.anyDuration, 0⟩, false, some ⟨0, AgeUnit.days⟩⟩

/-- Concrete video used alongside `w9Filters`. -/
def w9Video : VideoData := ⟨0, "x", "", true, 100, some "a year ago", none⟩

/-- Concrete interaction outcomes used to instantiate the cancellation
property. -/
def demoOutcomes : Nat → StepOutcome :=
  fun n => if n = 1 then StepOutcome.menuButtonMissing else StepOutcome.removed

/-- Concrete candidate list used to instantiate the cancellation
property. -/
def demoCandidates : List DeletionCandidate :=
  [⟨0, "v0", ["Is watched (any duration)"], none⟩,
   ⟨1, "v1", ["Is watched (any duration)"], none⟩,
   ⟨2, "v2", ["Is watched (any duration)"], none⟩,
   ⟨3, "v3", ["Is watched (any duration)"], none⟩,
   ⟨4, "v4", ["Is watched (any duration)"], none⟩]

end YPC

namespace YPC

theorem watchedReason_length (fw : Option WatchedFilter) (v : VideoData) :
    (watchedReason fw v).length = boolToNat (watchedMatches fw v) := by
  rcases fw with _ | w
  · rfl
  · rcases w with ⟨en, cr, val⟩
    cases en <;> cases cr <;> cases hw : v.isWatched <;>
      simp [watchedReason, watchedMatches, boolToNat, hw] <;>
      by_cases h1 : 0 < val <;> by_cases h2 : val ≤ v.watchPercentage <;>
      simp [h1, h2]

theorem unavailableReason_length (du : Bool) (v : VideoData) :
    (unavailableReason du v).length = boolToNat (unavailableMatches du v) := by
  cases du <;>
    by_cases h1 : v.title = "[Private video]" <;>
    by_cases h2 : v.title = "[Deleted video]" <;>
    simp [unavailableReason, unavailableMatches, boolToNat, h1, h2]

theorem titleReason_length (terms : List String) (v : VideoData) :
    (titleReason terms v).length = boolToNat (titleMatches terms v) := by
  by_cases h : 0 < terms.length
  · cases hf : titleFound terms v <;> simp [titleReason, titleMatches, boolToNat, h, hf]
  · simp [titleReason, titleMatches, boolToNat, h]

theorem channelReason_length (terms : List String) (v : VideoData) :
    (channelReason terms v).length = boolToNat (channelMatches terms v) := by
  by_cases h : 0 < terms.length
  · cases hf : channelFound terms v <;> simp [channelReason, channelMatches, boolToNat, h, hf]
  · simp [channelReason, channelMatches, boolToNat, h]

theorem ageReason_length (age : Option AgeFilter) (fAge : Option Int) (v : VideoData) :
    (ageReason age fAge v).length = boolToNat (ageMatches fAge v) := by
  rcases fAge with _ | fa
  · rfl
  · rcases hs : v.ageString with _ | s
    · simp [ageReason, ageMatches, boolToNat, hs]
    · by_cases h0 : s = ""
      · simp [ageReason, ageMatches, boolToNat, hs, h0]
      · rcases hp : parseAgeToDays s with _ | d
        · simp [ageReason, ageMatches, boolToNat, hs, h0, hp]
        · by_cases hlt : fa < d <;> simp [ageReason, ageMatches, boolToNat, hs, h0, hp, hlt]

theorem reasons_length_eq (filters : Filters) (tTerms cTerms : List String) (fAge : Option Int)
    (v : VideoData) :
    (videoReasons filters tTerms cTerms fAge v).length = hitCount filters tTerms cTerms fAge v := by
  simp only [videoReasons, hitCount, List.length_append, watchedReason_length,
    unavailableReason_length, titleReason_length, channelReason_length, ageReason_length]

theorem filterMap_singleton_ne_nil {α β : Type} (f : α → Option β) (a : α) :
    (List.filterMap f [a] ≠ []) ↔ ∃ b, f a = some b := by
  cases h : f a <;> simp [List.filterMap_cons, h]

end YPC

namespace YPC

/-- Claim C1: for every item record and filter set, with `activeCount` the
number of active sub-filters and `hitCount` the number of sub-filters
matching the item, the filter engine includes the item as a candidate
under OR logic iff `hitCount > 0`, and under AND logic iff
`hitCount = activeCount` and `activeCount > 0`, so an all-inactive filter
set matches nothing under AND. -/
theorem c1_filter_logic (filters : Filters) (logic : Logic) (v : VideoData) :
    getVideosToDeleteAndReasons [v] filters logic ≠ [] ↔
      ((logic = Logic.OR ∧ 0 < pipelineHitCount filters v)
        ∨ (logic = Logic.AND ∧ pipelineHitCount filters v = pipelineActiveCount filters
            ∧ 0 < pipelineActiveCount filters)) := by
  unfold getVideosToDeleteAndReasons
  rw [filterMap_singleton_ne_nil]
  unfold candidateFor
  simp only [reasons_length_eq]
  unfold pipelineHitCount pipelineActiveCount
  constructor
  · rintro ⟨b, hb⟩
    split at hb
    · rename_i h; exact h
    · exact absurd hb (by simp)
  · intro h
    refine ⟨⟨v.id, v.title, videoReasons filters (parseFilterString filters.titleContains)
      (parseFilterString filters.channelName) (filterAgeInDays filters.age) v, v.videoUrl⟩, ?_⟩
    rw [if_pos h]

/-- Claim C8: every candidate emitted by the filter engine carries a
non-empty reason list, under OR as well as AND logic. -/
theorem c8_nonempty_reasons (videos : List VideoData) (filters : Filters) (logic : Logic)
    (c : DeletionCandidate) (hc : c ∈ getVideosToDeleteAndReasons videos filters logic) :
    c.reasons ≠ [] := by
  unfold getVideosToDeleteAndReasons at hc
  rcases List.mem_filterMap.mp hc with ⟨v, hv, hfv⟩
  unfold candidateFor at hfv
  split at hfv
  · rename_i h
    cases hfv
    have hpos2 : 0 < (videoReasons filters (parseFilterString filters.titleContains)
        (parseFilterString filters.channelName) (filterAgeInDays filters.age) v).length := by
      rcases h with ⟨_, hlen⟩ | ⟨_, hlen, hpos⟩
      · exact hlen
      · omega
    exact List.length_pos.mp hpos2
  · exact absurd hfv (by simp)

end YPC

namespace YPC

theorem phraseLoop_eq (ms : List (List Char)) (ts : List String) (rem : List Char) :
    phraseLoop ms ts rem =
      (ms.foldl
        (fun acc content =>
          if trimChars content = [] then acc
          else acc ++ [String.mk (lowerChars (trimChars content))]) ts,
       ms.foldl (fun s content => removeFirst (quoteWrap content) s) rem) := by
  induction ms generalizing ts rem with
  | nil => rfl
  | cons content ms ih => simp only [phraseLoop, List.foldl_cons, ih]

/-- Claim C5: the term parser returns all quoted-phrase terms first, in
order of appearance, trimmed and lowercased, followed by the comma-split
terms of the remaining string, trimmed, lowercased and with empty pieces
dropped; undefined or empty input yields the empty list, and the sample
input review, "let's play" parses to the phrase-first list. -/
theorem c5_term_parsing :
    (∀ fs : String, parseFilterString (some fs) = phraseTermsOf fs ++ commaTermsOf fs)
    ∧ parseFilterString none = []
    ∧ parseFilterString (some "") = []
    ∧ parseFilterString (some c5Input) = [c5Phrase, "review"] := by
  refine ⟨fun fs => ?_, rfl, by decide, by decide⟩
  by_cases h : fs = ""
  · subst h; decide
  · simp only [parseFilterString, h, if_neg, phraseLoop_eq, phraseTermsOf, commaTermsOf,
      remainderOf]
    simp [h]

theorem execLoopAux_dry (f : Nat → StepOutcome) (cs : List DeletionCandidate) :
    ∀ (idx : Nat) (st : ExecState),
      execLoopAux true none f cs idx st =
        ⟨st.summaries ++ cs.map candidateEntry, st.failed, st.events⟩ := by
  induction cs with
  | nil => intro idx st; simp [execLoopAux]
  | cons c rest ih =>
    intro idx st
    simp [execLoopAux, isCancelledAt, processCandidate, ih]

/-- Claim C7: in dry-run mode without cancellation, every candidate is
recorded as succeeded with its summary block (title, existing match
reasons, optional URL), the failed list stays empty, and no interactive
page primitive is invoked. -/
theorem c7_dry_run (f : Nat → StepOutcome) (candidates : List DeletionCandidate) :
    (runCandidates true none f candidates).summaries = candidates.map candidateEntry
    ∧ (runCandidates true none f candidates).failed = []
    ∧ (runCandidates true none f candidates).events = [] := by
  unfold runCandidates
  rw [execLoopAux_dry]
  simp

/-- Claim C2 counterexample: a round in which the content extent increased
(100 to 150) while the item count did not (5 to 5) makes the growth wait
report growth, yet the loader increments the no-growth counter to 1
instead of resetting it to 0. -/
theorem c2_counterexample :
    growthSignal ⟨5, 100, 0⟩ 5 150 false = true
    ∧ (100 : Nat) < 150
    ∧ (loaderRound ⟨5, 100, 0⟩ (growthSignal ⟨5, 100, 0⟩ 5 150 false) 5 150 true
        false).1.noGrowCount = 1 := by
  decide

/-- Claim C2 (amended): after the growth wait the loader recomputes the
item count and content extent, but it resets the no-growth counter (also
storing the new count and extent) and continues looping only when the wait
reported growth and the item count strictly increased; every other round,
including one where only the content extent increased, increments the
no-growth counter and leaves the stored count and extent unchanged. -/
theorem c2_loader_growth (st : LoaderState) (grew : Bool) (cc ch : Nat) (sp lv : Bool) :
    (grew = true → st.lastCount < cc →
        loaderRound st grew cc ch sp lv = (⟨cc, ch, 0⟩, RoundOutcome.continueLoop))
    ∧ (grew = false ∨ cc ≤ st.lastCount →
        (loaderRound st grew cc ch sp lv).1.noGrowCount = st.noGrowCount + 1
        ∧ (loaderRound st grew cc ch sp lv).1.lastCount = st.lastCount
        ∧ (loaderRound st grew cc ch sp lv).1.prevScrollHeight = st.prevScrollHeight) := by
  constructor
  · intro hg hc
    simp [loaderRound, hg, hc]
  · intro h
    have hcond : ¬(grew = true ∧ st.lastCount < cc) := by
      rcases h with h | h
      · simp [h]
      · rintro ⟨_, h2⟩; omega
    simp only [loaderRound, if_neg hcond]
    split
    · simp
    · split <;> simp

/-- Witness for the amended claim C2 at concrete rounds: a count increase
resets the counter and continues; a height-only increase increments it. -/
theorem c2_loader_growth_witness :
    loaderRound ⟨5, 100, 0⟩ true 8 150 true false = (⟨8, 150, 0⟩, RoundOutcome.continueLoop)
    ∧ (loaderRound ⟨5, 100, 0⟩ true 5 150 true false).1.noGrowCount = 1 :=
  ⟨(c2_loader_growth ⟨5, 100, 0⟩ true 8 150 true false).1 rfl (by decide),
   ((c2_loader_growth ⟨5, 100, 0⟩ true 5 150 true false).2 (Or.inr (by decide))).1⟩

/-- Claim C10: in every summary block, succeeded, dry-run or failed, the
URL line is omitted when the trimmed title is one of the unavailable
sentinels, even when a URL was extracted; any other title gets its URL
line when a non-empty URL was extracted. -/
theorem c10_url_omission (i : Nat) (title : String) (reasons : List String) (u : String)
    (hu : u ≠ "") :
    (isUnavailableTitle (some title) = true →
        candidateEntry ⟨i, title, reasons, some u⟩ = entryBase title reasons
        ∧ failureEntry ⟨title, reasons, some u⟩ = entryBase title reasons ++ "\n")
    ∧ (isUnavailableTitle (some title) = false →
        candidateEntry ⟨i, title, reasons, some u⟩ = entryBase title reasons ++ "\n  " ++ u
        ∧ failureEntry ⟨title, reasons, some u⟩ = entryBase title reasons ++ "\n  " ++ u ++ "\n") := by
  constructor
  · intro h
    constructor <;> simp [candidateEntry, failureEntry, h, hu]
  · intro h
    constructor <;> simp [candidateEntry, failureEntry, h, hu]

/-- Witness for claim C10: a private-video title with an extracted URL
gets no URL line, an ordinary title does. -/
theorem c10_url_omission_witness :
    candidateEntry ⟨0, "[Private video]", ["Is unavailable ([Private video] or [Deleted video])"],
        some "https://www.youtube.com/watch?v=abc"⟩
      = entryBase "[Private video]" ["Is unavailable ([Private video] or [Deleted video])"]
    ∧ candidateEntry ⟨1, "Daily news", ["Title contains news"], some "https://www.youtube.com/watch?v=xyz"⟩
      = entryBase "Daily news" ["Title contains news"] ++ "\n  " ++ "https://www.youtube.com/watch?v=xyz" :=
  ⟨((c10_url_omission 0 "[Private video]" ["Is unavailable ([Private video] or [Deleted video])"]
      "https://www.youtube.com/watch?v=abc" (by decide)).1 (by decide)).1,
   ((c10_url_omission 1 "Daily news" ["Title contains news"]
      "https://www.youtube.com/watch?v=xyz" (by decide)).2 (by decide)).1⟩

end YPC

namespace YPC

/-- Claim C3: for an active age filter with positive value, an item whose
age string parses to `d` days matches iff `d` is strictly greater than the
filter value times the unit factor; an item with an unparseable or absent
age string never matches; the item-side parse uses the factors 1, 7, 30,
365 with a and an meaning one. -/
theorem c3_age_filter_semantics (value : Int) (u : AgeUnit) (v : VideoData) (hv : 0 < value) :
    (∀ s d, v.ageString = some s → parseAgeToDays s = some d →
        ((ageReason (some ⟨value, u⟩) (filterAgeInDays (some ⟨value, u⟩)) v ≠ []) ↔
          value * u.factor < d))
    ∧ (∀ s, v.ageString = some s → parseAgeToDays s = none →
        ageReason (some ⟨value, u⟩) (filterAgeInDays (some ⟨value, u⟩)) v = [])
    ∧ (v.ageString = none →
        ageReason (some ⟨value, u⟩) (filterAgeInDays (some ⟨value, u⟩)) v = [])
    ∧ parseAgeToDays "a year ago" = some 365
    ∧ parseAgeToDays "3 weeks ago" = some 21 := by
  have hne : value ≠ 0 := by omega
  have hfa : filterAgeInDays (some ⟨value, u⟩) = some (value * u.factor) := by
    simp [filterAgeInDays, hne]
  refine ⟨?_, ?_, ?_, by decide, by decide⟩
  · intro s d hs hpd
    have hs0 : s ≠ "" := by
      intro h0; rw [h0] at hpd; simp [parseAgeToDays] at hpd
    rw [hfa]
    by_cases hlt : value * u.factor < d <;> simp [ageReason, hs, hs0, hpd, hlt]
  · intro s hs hpd
    rw [hfa]
    by_cases hs0 : s = "" <;> simp [ageReason, hs, hpd, hs0]
  · intro hs
    rw [hfa]
    simp [ageReason, hs]

/-- Witness for claim C3: a video aged 3 weeks matches an older-than-2-weeks
filter. -/
theorem c3_age_filter_semantics_witness :
    ageReason (some ⟨2, AgeUnit.weeks⟩) (filterAgeInDays (some ⟨2, AgeUnit.weeks⟩)) w3Video ≠ [] :=
  ((c3_age_filter_semantics 2 AgeUnit.weeks w3Video (by decide)).1 "3 weeks ago" 21 rfl
    (by decide)).mpr (by decide)

/-- Claim C4: with the engagement filter enabled in percent mode, an item
matches iff its watch percentage is at least the threshold (inclusive
boundary), a zero or negative threshold never matches (no error), and in
any-duration mode an item matches iff it is watched at all. -/
theorem c4_engagement_semantics (w : WatchedFilter) (v : VideoData) (hen : w.enabled = true) :
    (w.criteria = WatchedCriteria.percent →
        ((0 < w.value → ((watchedReason (some w) v ≠ []) ↔ w.value ≤ v.watchPercentage))
          ∧ (w.value ≤ 0 → watchedReason (some w) v = [])
          ∧ (v.watchPercentage < w.value → watchedReason (some w) v = [])))
    ∧ (w.criteria = WatchedCriteria.anyDuration →
        ((watchedReason (some w) v ≠ []) ↔ v.isWatched = true)) := by
  constructor
  · intro hcr
    refine ⟨?_, ?_, ?_⟩
    · intro hval
      by_cases hp : w.value ≤ v.watchPercentage <;>
        simp [watchedReason, hen, hcr, hval, hp]
    · intro hval
      have hnp : ¬(0 < w.value) := by omega
      simp [watchedReason, hen, hcr, hnp]
    · intro hlt
      have hnp : ¬(w.value ≤ v.watchPercentage) := by omega
      simp [watchedReason, hen, hcr, hnp]
  · intro hcr
    cases hw : v.isWatched <;> simp [watchedReason, hen, hcr, hw]

/-- Witness for claim C4: a 45 percent watched video matches threshold 45
and does not match threshold 50. -/
theorem c4_engagement_semantics_witness :
    (watchedReason (some ⟨true, WatchedCriteria.percent, 45⟩) w4Video ≠ [])
    ∧ ¬(watchedReason (some ⟨true, WatchedCriteria.percent, 50⟩) w4Video ≠ []) :=
  ⟨(((c4_engagement_semantics ⟨true, WatchedCriteria.percent, 45⟩ w4Video rfl).1 rfl).1
      (by decide)).mpr (by decide),
   fun hne => hne (((c4_engagement_semantics ⟨true, WatchedCriteria.percent, 50⟩ w4Video
      rfl).1 rfl).2.2 (by decide))⟩

/-- Claim C9: an age filter with value zero is inactive: its day threshold
is null, it does not change the active-filter count, and the engine output
is the same as with no age filter at all. -/
theorem c9_zero_age_inactive (filters : Filters) (videos : List VideoData) (logic : Logic)
    (a : AgeFilter) (hage : filters.age = some a) (hval : a.value = 0) :
    filterAgeInDays filters.age = none
    ∧ pipelineActiveCount filters = pipelineActiveCount { filters with age := none }
    ∧ getVideosToDeleteAndReasons videos filters logic
        = getVideosToDeleteAndReasons videos { filters with age := none } logic := by
  have h1 : filterAgeInDays filters.age = none := by simp [hage, filterAgeInDays, hval]
  have h2 : filterAgeInDays (none : Option AgeFilter) = none := rfl
  have hTC : ({ filters with age := none } : Filters).titleContains = filters.titleContains := rfl
  have hCN : ({ filters with age := none } : Filters).channelName = filters.channelName := rfl
  have hAge : ({ filters with age := none } : Filters).age = none := rfl
  have hactive : activeFilterCount filters (parseFilterString filters.titleContains)
      (parseFilterString filters.channelName) none
      = activeFilterCount { filters with age := none } (parseFilterString filters.titleContains)
        (parseFilterString filters.channelName) none := by
    simp [activeFilterCount]
  refine ⟨h1, ?_, ?_⟩
  · unfold pipelineActiveCount
    rw [hTC, hCN, hAge, h1, h2]
    exact hactive
  · unfold getVideosToDeleteAndReasons
    rw [hTC, hCN, hAge, h1, h2]
    congr 1

/-- Witness for claim C9: a filter set whose age filter has value zero
behaves as if the age filter were absent. -/
theorem c9_zero_age_inactive_witness :
    filterAgeInDays w9Filters.age = none
    ∧ pipelineActiveCount w9Filters = pipelineActiveCount { w9Filters with age := none }
    ∧ getVideosToDeleteAndReasons [w9Video] w9Filters Logic.AND
        = getVideosToDeleteAndReasons [w9Video] { w9Filters with age := none } Logic.AND :=
  c9_zero_age_inactive w9Filters [w9Video] Logic.AND ⟨0, AgeUnit.days⟩ rfl rfl

/-- Witness for claim C8: a concrete candidate emitted by the engine keeps
its non-empty reason list. -/
theorem c8_nonempty_reasons_witness :
    (⟨0, "abc", ["Is watched (any duration)"], none⟩ : DeletionCandidate).reasons ≠ [] :=
  c8_nonempty_reasons [w8Video] w8Filters Logic.OR
    ⟨0, "abc", ["Is watched (any duration)"], none⟩ (by decide)

theorem execLoopAux_cancel_take (d : Bool) (f : Nat → StepOutcome) (k : Nat)
    (cs : List DeletionCandidate) :
    ∀ (idx : Nat) (st : ExecState),
      execLoopAux d (some k) f cs idx st = execLoopAux d none f (cs.take (k - idx)) idx st := by
  induction cs with
  | nil => intro idx st; simp [execLoopAux]
  | cons c rest ih =>
    intro idx st
    by_cases h : k ≤ idx
    · have h0 : k - idx = 0 := by omega
      simp [execLoopAux, isCancelledAt, h, h0]
    · have h1 : k - idx = (k - (idx + 1)) + 1 := by omega
      rw [h1]
      simp [execLoopAux, isCancelledAt, h, ih]

theorem processCandidate_counts (d : Bool) (o : StepOutcome) (idx : Nat) (c : DeletionCandidate)
    (st : ExecState) :
    (processCandidate d o idx c st).summaries.length + (processCandidate d o idx c st).failed.length
      = st.summaries.length + st.failed.length + 1 := by
  cases d <;> cases o <;> simp [processCandidate] <;> omega

theorem execLoopAux_counts (d : Bool) (f : Nat → StepOutcome) (cs : List DeletionCandidate) :
    ∀ (idx : Nat) (st : ExecState),
      (execLoopAux d none f cs idx st).summaries.length
          + (execLoopAux d none f cs idx st).failed.length
        = st.summaries.length + st.failed.length + cs.length := by
  induction cs with
  | nil => intro idx st; simp [execLoopAux]
  | cons c rest ih =>
    intro idx st
    have h1 := processCandidate_counts d (f idx) idx c st
    have hred : execLoopAux d none f (c :: rest) idx st
        = execLoopAux d none f rest (idx + 1) (processCandidate d (f idx) idx c st) := by
      simp [execLoopAux, isCancelledAt]
    rw [hred, ih]
    simp only [List.length_cons]
    omega

theorem countP_isCleanup_map (l : List ExecEvent) :
    (l.map RunEvent.execEvent).countP isCleanup = 0 := by
  induction l with
  | nil => rfl
  | cons e rest ih => simp [List.countP_cons, isCleanup, ih]

theorem cleanupCount_handle (cl d : Bool) (ca : Option Nat) (f : Nat → StepOutcome)
    (cs : List DeletionCandidate) :
    cleanupCount (handleDeleteRequestEvents cl d ca f cs) = 1 := by
  unfold handleDeleteRequestEvents cleanupCount
  cases cl <;>
    simp [List.countP_append, countP_isCleanup_map, List.countP_cons, isCleanup]

/-- Claim C6: the cancellation flag is read before each candidate begins;
when cancellation is requested after `k` of `n` candidates, the run equals
the uncancelled run on the first `k` candidates, exactly `k` entries
appear in the succeeded and failed lists combined (the other `n - k`
candidates in neither), and cleanup runs exactly once. -/
theorem c6_cancellation (d : Bool) (f : Nat → StepOutcome) (candidates : List DeletionCandidate)
    (k : Nat) (hk : k ≤ candidates.length) :
    runCandidates d (some k) f candidates = runCandidates d none f (candidates.take k)
    ∧ (runCandidates d (some k) f candidates).summaries.length
        + (runCandidates d (some k) f candidates).failed.length = k
    ∧ cleanupCount (handleDeleteRequestEvents false d (some k) f candidates) = 1 := by
  have h1 : runCandidates d (some k) f candidates
      = runCandidates d none f (candidates.take k) := by
    unfold runCandidates
    simpa using execLoopAux_cancel_take d f k candidates 0 ⟨[], [], []⟩
  refine ⟨h1, ?_, cleanupCount_handle false d (some k) f candidates⟩
  rw [h1]
  unfold runCandidates
  rw [execLoopAux_counts]
  simp [List.length_take]
  omega

/-- Witness for claim C6: cancellation after two of five candidates leaves
exactly two entries across both lists and one cleanup event. -/
theorem c6_cancellation_witness :
    (runCandidates false (some 2) demoOutcomes demoCandidates).summaries.length
        + (runCandidates false (some 2) demoOutcomes demoCandidates).failed.length = 2
    ∧ cleanupCount (handleDeleteRequestEvents false false (some 2) demoOutcomes demoCandidates)
        = 1 :=
  ⟨(c6_cancellation false demoOutcomes demoCandidates 2 (by decide)).2.1,
   (c6_cancellation false demoOutcomes demoCandidates 2 (by decide)).2.2⟩

end YPC
